import Mathlib

/-!
Shallow embedding of the bulk card-data ingestion pipeline of the
mtgcollection repository (scripts/populate_cards.py, app/models.py,
app/crud.py) and theorems checking the specification's claims against it.

HTTP traffic is modelled by an oracle `fetch : String → FetchResult`
(one outcome per URL), and the bulk/directory endpoints by explicit
input lists; everything else follows the Python source line by line.
-/

namespace MtgCollection

/-- The image-URI map of one raw bulk item (`card_data["image_uris"]`,
small/normal/large/art_crop/border_crop). Absent keys are `none`. -/
structure ImageUris where
  small : Option String
  normal : Option String
  large : Option String
  art_crop : Option String
  border_crop : Option String
deriving Repr, DecidableEq

/-- One raw bulk item, with exactly the keys `process_card_data` reads via
`card_data.get(...)` (scripts/populate_cards.py lines 39-63). A key absent
from the JSON object is `none`. -/
structure CardData where
  id : Option String
  name : Option String
  set : Option String
  collector_number : Option String
  legalities : Option (List (String × String))
  type_line : Option String
  image_uris : Option ImageUris
deriving Repr, DecidableEq

/-- `card_data.get("image_uris", {})` — an absent map defaults to empty. -/
def CardData.imageUrisOrEmpty (c : CardData) : ImageUris :=
  c.image_uris.getD ⟨none, none, none, none, none⟩

/-- Python truthiness test on an optional string: `not x` is true for
`None` and for the empty string. -/
def falsy : Option String → Bool
  | none => true
  | some s => s = ""

/-- The `card_model_data` dict built at scripts/populate_cards.py lines
52-68: always exactly these fourteen keys, the three `image_data_*`
entries initialised to `None`. -/
structure CardModelData where
  scryfall_id : String
  name : Option String
  set_code : Option String
  collector_number : Option String
  legalities : Option (List (String × String))
  type_line : Option String
  image_uri_small : Option String
  image_uri_normal : Option String
  image_uri_large : Option String
  image_uri_art_crop : Option String
  image_uri_border_crop : Option String
  image_data_small : Option String
  image_data_normal : Option String
  image_data_large : Option String
deriving Repr, DecidableEq

/-- Lines 50-68 of scripts/populate_cards.py: map the raw item into the
`card_model_data` dict (the record-transformer step). -/
def buildCardModelData (scryfall_id : String) (card_data : CardData) : CardModelData :=
  let image_uris := card_data.imageUrisOrEmpty
  { scryfall_id := scryfall_id
    name := card_data.name
    set_code := card_data.set
    collector_number := card_data.collector_number
    legalities := card_data.legalities
    type_line := card_data.type_line
    image_uri_small := image_uris.small
    image_uri_normal := image_uris.normal
    image_uri_large := image_uris.large
    image_uri_art_crop := image_uris.art_crop
    image_uri_border_crop := image_uris.border_crop
    image_data_small := none
    image_data_normal := none
    image_data_large := none }

/-- The keys of the `card_model_data` dict, in insertion order
(scripts/populate_cards.py lines 52-67). -/
def cardModelDataKeys : List String :=
  ["scryfall_id", "name", "set_code", "collector_number", "legalities", "type_line",
   "image_uri_small", "image_uri_normal", "image_uri_large",
   "image_uri_art_crop", "image_uri_border_crop",
   "image_data_small", "image_data_normal", "image_data_large"]

/-- The attributes actually declared on the `CardDefinition` SQLAlchemy
model (app/models.py lines 19-43): surrogate id, scryfall_id, name,
set_code, collector_number, the two timestamps and the
`collection_entries` relationship. The legalities / type_line /
image-URI / image-data columns are commented out in the source. -/
def cardDefinitionAttrs : List String :=
  ["id", "scryfall_id", "name", "set_code", "collector_number",
   "date_added", "date_updated", "collection_entries"]

/-- `CardDefinitionModel(**card_model_data)` (scripts/populate_cards.py
line 118). SQLAlchemy's declarative constructor raises `TypeError` at the
first keyword argument that is not an attribute of the mapped class;
otherwise the instance holds the given values. -/
def constructCardDefinitionModel (d : CardModelData) : Except String CardModelData :=
  match cardModelDataKeys.find? (fun k => ¬ cardDefinitionAttrs.contains k) with
  | some k => Except.error k
  | none => Except.ok d

/-- Outcome of one HTTP GET against the image client: a 2xx response with
a body, a non-success status (`raise_for_status` raises
`httpx.HTTPStatusError`), or any other failure (network error, timeout,
or any further exception — the `except Exception` branch). -/
inductive FetchResult where
  | success (content : String)
  | httpStatusError (code : Nat)
  | otherError
deriving Repr, DecidableEq

/-- Observable events of one run, used to state which collaborators an
item's processing invoked. -/
inductive Ev where
  | lookup (sid : String)
  | transform
  | fetchImage (url : String)
  | stageFailed
  | stage (r : CardModelData)
  | commitEv (size : Nat)
  | rollbackEv
deriving Repr, DecidableEq

/-- One `if card_model_data["image_uri_X"]: try ... except` block
(scripts/populate_cards.py lines 76-87, repeated for normal and large).
Input: the current URI field. Output: the (URI, data) pair afterwards and
the fetch events. On success the body is stored and the URI kept; on
`httpx.HTTPStatusError` only a message is printed — the URI is NOT
cleared; on any other exception the URI is set to `None`. A falsy URI
(absent or empty) skips the block. -/
def downloadOne (fetch : String → FetchResult) (uri : Option String) :
    (Option String × Option String) × List Ev :=
  match uri with
  | none => ((none, none), [])
  | some u =>
    if u = "" then ((some u, none), [])
    else
      match fetch u with
      | FetchResult.success c => ((some u, some c), [Ev.fetchImage u])
      | FetchResult.httpStatusError _ => ((some u, none), [Ev.fetchImage u])
      | FetchResult.otherError => ((none, none), [Ev.fetchImage u])

/-- Lines 76-113 of scripts/populate_cards.py: the three per-size
download blocks, run in order small, normal, large. -/
def downloadPhase (fetch : String → FetchResult) (d : CardModelData) :
    CardModelData × List Ev :=
  let rs := downloadOne fetch d.image_uri_small
  let rn := downloadOne fetch d.image_uri_normal
  let rl := downloadOne fetch d.image_uri_large
  ({ d with
      image_uri_small := rs.1.1, image_data_small := rs.1.2
      image_uri_normal := rn.1.1, image_data_normal := rn.1.2
      image_uri_large := rl.1.1, image_data_large := rl.1.2 },
   rs.2 ++ rn.2 ++ rl.2)

/-- The open SQLAlchemy session. Modelled from the spec: the persistence
boundary of §4.7 (app/database.py is not part of the sources) — records
durably persisted by earlier commits, and records added to the open
transaction but not yet committed. -/
structure Session where
  committed : List CardModelData
  staged : List CardModelData
deriving Repr, DecidableEq

/-- app/crud.py lines 73-80: `select(CardDefinition).filter(scryfall_id
== sid)`, first row or `None`. Modelled from the spec: the query runs on
the open session, so (autoflush) it sees committed rows and rows staged
in the open transaction. -/
def get_card_definition_by_scryfall_id (db : Session) (sid : String) :
    Option CardModelData :=
  (db.committed ++ db.staged).find? (fun r => r.scryfall_id = sid)

/-- scripts/populate_cards.py lines 38-125, `process_card_data`: skip on
falsy scryfall id; dedup lookup; build `card_model_data`; skip on falsy
name; the three download blocks; `CardDefinitionModel(**card_model_data)`
then `db.add` inside `try: ... except Exception:` — a constructor error
is printed and swallowed, and the record is not staged. Returns the
session afterwards and the emitted events. -/
def process_card_data (db : Session) (card_data : CardData)
    (fetch : String → FetchResult) : Session × List Ev :=
  match card_data.id with
  | none => (db, [])
  | some sid =>
    if sid = "" then (db, [])
    else
      match get_card_definition_by_scryfall_id db sid with
      | some _ => (db, [Ev.lookup sid])
      | none =>
        let d0 := buildCardModelData sid card_data
        if falsy d0.name then (db, [Ev.lookup sid, Ev.transform])
        else
          let r := downloadPhase fetch d0
          match constructCardDefinitionModel r.1 with
          | Except.error _ =>
              (db, [Ev.lookup sid, Ev.transform] ++ r.2 ++ [Ev.stageFailed])
          | Except.ok inst =>
              ({ db with staged := db.staged ++ [inst] },
               [Ev.lookup sid, Ev.transform] ++ r.2 ++ [Ev.stage inst])

/-- One concurrency window (scripts/populate_cards.py lines 164-167):
`asyncio.gather` over `process_card_data` for each item of the window
against the same session. The fold is one schedule of the cooperative
event loop; each task's session mutation runs between awaits. -/
def processWindow (fetch : String → FetchResult) (db : Session)
    (batch : List CardData) : Session × List Ev :=
  batch.foldl
    (fun acc c =>
      let r := process_card_data acc.1 c fetch
      (r.1, acc.2 ++ r.2))
    (db, [])

/-- Modelled from the spec: `session.commit()` of the persistence
boundary (§4.7) — durably persist every staged record. -/
def commitSession (s : Session) : Session :=
  ⟨s.committed ++ s.staged, []⟩

/-- Modelled from the spec: `session.rollback()` of the persistence
boundary (§4.7) — discard every staged-but-uncommitted record; committed
records are untouched. -/
def rollbackSession (s : Session) : Session :=
  ⟨s.committed, []⟩

/-- Loop state of `main_populate` (scripts/populate_cards.py lines
156-178): the open session, `processed_count_since_last_commit`, the
number of commits attempted so far, the sizes recorded at each successful
commit, the records each successful commit persisted, and the event
trace. -/
structure LoopSt where
  session : Session
  counter : Nat
  nCommit : Nat
  commits : List Nat
  commitBatches : List (List CardModelData)
  evs : List Ev
deriving Repr, DecidableEq

/-- Outcome of the batching loop: final session, sizes of the successful
commits, the records each persisted, whether the `except` branch ran
`session.rollback()`, and the event trace. -/
structure RunResult where
  session : Session
  commits : List Nat
  commitBatches : List (List CardModelData)
  rolledBack : Bool
  evs : List Ev
deriving Repr, DecidableEq

/-- scripts/populate_cards.py lines 155-189: the `try` block of
`main_populate`. `pw` is one window of per-item processing (it may throw,
e.g. a database error escaping the gather); `commitOk k` says whether the
k-th `session.commit()` succeeds; `W1 + 1` is the window width
(`concurrency_factor`; `range` with step 0 is impossible, so the width is
at least 1) and `C` the `commit_batch_size`. Any exception — a throwing
window or a failing commit — reaches the `except` branch, which rolls the
open transaction back and ends the run; otherwise the loop issues a
commit whenever the counter reaches `C` (resetting it) and one final
commit after the loop when the counter is positive. `fuel` bounds the
recursion; the loop consumes at least one item per iteration, so
`fuel = items.length` is exact. -/
def mainLoopGo (pw : Session → List CardData → Except Unit (Session × List Ev))
    (commitOk : Nat → Bool) (W1 C : Nat) :
    Nat → List CardData → LoopSt → RunResult
  | _, [], st =>
    if st.counter > 0 then
      if commitOk st.nCommit then
        ⟨commitSession st.session, st.commits ++ [st.counter],
         st.commitBatches ++ [st.session.staged], false,
         st.evs ++ [Ev.commitEv st.counter]⟩
      else
        ⟨rollbackSession st.session, st.commits, st.commitBatches, true,
         st.evs ++ [Ev.rollbackEv]⟩
    else
      ⟨st.session, st.commits, st.commitBatches, false, st.evs⟩
  | 0, _ :: _, st =>
    ⟨st.session, st.commits, st.commitBatches, false, st.evs⟩
  | fuel + 1, x :: xs, st =>
    let batch := (x :: xs).take (W1 + 1)
    let rest := xs.drop W1
    match pw st.session batch with
    | Except.error _ =>
        ⟨rollbackSession st.session, st.commits, st.commitBatches, true,
         st.evs ++ [Ev.rollbackEv]⟩
    | Except.ok r =>
        let counter' := st.counter + batch.length
        if counter' ≥ C then
          if commitOk st.nCommit then
            mainLoopGo pw commitOk W1 C fuel rest
              ⟨commitSession r.1, 0, st.nCommit + 1, st.commits ++ [counter'],
               st.commitBatches ++ [r.1.staged],
               st.evs ++ r.2 ++ [Ev.commitEv counter']⟩
          else
            ⟨rollbackSession r.1, st.commits, st.commitBatches, true,
             st.evs ++ r.2 ++ [Ev.rollbackEv]⟩
        else
          mainLoopGo pw commitOk W1 C fuel rest
            ⟨r.1, counter', st.nCommit, st.commits, st.commitBatches,
             st.evs ++ r.2⟩

/-- The loop state at line 159: fresh counters over the open session. -/
def initLoopSt (db : Session) : LoopSt :=
  ⟨db, 0, 0, [], [], []⟩

/-- The batching loop as `main_populate` runs it: windows of
`concurrency_factor = 20` items processed by `processWindow`, commits
every `commit_batch_size = 200` processed items. -/
def run_populate (fetch : String → FetchResult) (commitOk : Nat → Bool)
    (items : List CardData) (db : Session) : RunResult :=
  mainLoopGo (fun s b => Except.ok (processWindow fetch s b)) commitOk
    19 200 items.length items (initLoopSt db)

/-- One `{type, download_uri}` entry of the `/bulk-data` directory
response (scripts/populate_cards.py lines 32-35). -/
structure BulkDataEntry where
  type : String
  download_uri : String
deriving Repr, DecidableEq

/-- scripts/populate_cards.py lines 28-36, `get_latest_bulk_data_uri`:
scan the directory entries in order, return the first matching kind's
`download_uri`, else `None`. -/
def get_latest_bulk_data_uri : List BulkDataEntry → String → Option String
  | [], _ => none
  | e :: rest, bulk_type =>
    if e.type = bulk_type then some e.download_uri
    else get_latest_bulk_data_uri rest bulk_type

/-- Top-level effects of `main_populate` before the batching loop. -/
inductive TopEv where
  | directoryQuery
  | bulkDownload
  | tablesEnsured
  | sessionOpen
deriving Repr, DecidableEq

/-- Result of a whole `main_populate` invocation. -/
inductive MainOutcome where
  | abortedNoUri
  | ran (r : RunResult)
deriving Repr, DecidableEq

/-- scripts/populate_cards.py lines 127-189, `main_populate`: resolve the
bulk-data URI for kind "all_cards"; on a falsy URI print a diagnostic and
return — the bulk download, table creation and session are never reached.
Otherwise download the bulk list (`bulk_items` stands for its parsed
content), ensure tables, open a session and run the batching loop against
the existing store. -/
def main_populate (directory : List BulkDataEntry) (bulk_items : List CardData)
    (fetch : String → FetchResult) (commitOk : Nat → Bool)
    (store : List CardModelData) : MainOutcome × List TopEv :=
  match get_latest_bulk_data_uri directory "all_cards" with
  | none => (MainOutcome.abortedNoUri, [TopEv.directoryQuery])
  | some uri =>
    if uri = "" then (MainOutcome.abortedNoUri, [TopEv.directoryQuery])
    else
      (MainOutcome.ran (run_populate fetch commitOk bulk_items ⟨store, []⟩),
       [TopEv.directoryQuery, TopEv.bulkDownload, TopEv.tablesEnsured,
        TopEv.sessionOpen])

/-! ### Concrete inputs used to evaluate the pipeline -/

/-- A full image-URI map, all five sizes present. -/
def exImageUris : ImageUris :=
  ⟨some "https://img/small.jpg", some "https://img/normal.jpg",
   some "https://img/large.jpg", some "https://img/art.jpg",
   some "https://img/border.jpg"⟩

/-- A fully valid raw item: external id and name present, every optional
field populated. -/
def exCard : CardData :=
  ⟨some "abc-123", some "Lightning Bolt", some "lea", some "161",
   some [("modern", "legal")], some "Instant", some exImageUris⟩

/-- Oracle under which every image GET succeeds with a body. -/
def fetchAllOk : String → FetchResult := fun _ => FetchResult.success "JPEGDATA"

/-- Oracle under which the small image returns HTTP 404 and the other
sizes succeed. -/
def fetchSmall404 : String → FetchResult := fun u =>
  if u = "https://img/small.jpg" then FetchResult.httpStatusError 404
  else FetchResult.success "JPEGDATA"

/-- The j-th of a family of valid items with pairwise distinct ids. -/
def mkItem (j : Nat) : CardData :=
  ⟨some ("card-" ++ toString j), some "Some Card", some "lea", some (toString j),
   some [("modern", "legal")], some "Instant", some exImageUris⟩

/-- `mkItems n j` : n distinct valid items starting at index j. -/
def mkItems : Nat → Nat → List CardData
  | 0, _ => []
  | n + 1, j => mkItem j :: mkItems n (j + 1)

/-- 450 valid, pairwise-distinct items. -/
def items450 : List CardData := mkItems 450 0

/-- The run of the spec's batch-boundary scenario: commit threshold 200,
window width 20, 450 valid non-duplicate items, all fetches succeed,
every commit succeeds, empty initial store. -/
def c3run : RunResult :=
  run_populate fetchAllOk (fun _ => true) items450 ⟨[], []⟩

/-- The commit-size trace of the batching loop as a function of the item
COUNT alone (window width `W1 + 1`, threshold `C`), mirroring the
counter arithmetic of `mainLoopGo`; the theorems below prove the loop's
trace equals it whatever the per-item outcomes were. -/
def loopCommits (commitOk : Nat → Bool) (W1 C : Nat) :
    Nat → Nat → Nat → Nat → List Nat
  | _, 0, counter, nCommit =>
    if counter > 0 then
      if commitOk nCommit then [counter] else []
    else []
  | 0, _ + 1, _, _ => []
  | fuel + 1, n + 1, counter, nCommit =>
    let b := min (W1 + 1) (n + 1)
    let counter' := counter + b
    if counter' ≥ C then
      if commitOk nCommit then
        counter' :: loopCommits commitOk W1 C fuel (n - W1) 0 (nCommit + 1)
      else []
    else loopCommits commitOk W1 C fuel (n - W1) counter' nCommit

/-- First run of the idempotence scenario: one valid item over an empty
store, all fetches succeed. -/
def c7run1 : RunResult := run_populate fetchAllOk (fun _ => true) [exCard] ⟨[], []⟩

/-- Second run over the same dataset, its store being whatever the first
run persisted. -/
def c7run2 : RunResult :=
  run_populate fetchAllOk (fun _ => true) [exCard] ⟨c7run1.session.committed, []⟩

/-- A record as a hypothetical fixed per-item stage effect. -/
def wRec : CardModelData := buildCardModelData "w-1" exCard

/-- A window processor that stages one record per window and touches
nothing else. -/
def c4pw : Session → List CardData → Except Unit (Session × List Ev) :=
  fun s _ => Except.ok (⟨s.committed, s.staged ++ [wRec]⟩, [])

/-- Commit oracle under which only the first commit succeeds. -/
def c4commitOk : Nat → Bool := fun k => decide (k = 0)

/-- An item with no external id but valid asset URIs. -/
def noIdCard : CardData :=
  ⟨none, some "Ghost Card", none, none, none, none, some exImageUris⟩

/-- An item with an external id and valid asset URIs but no name. -/
def noNameCard : CardData :=
  ⟨some "x-1", none, none, none, none, none, some exImageUris⟩

/-- A directory response with no entry of kind "all_cards". -/
def noMatchDirectory : List BulkDataEntry :=
  [⟨"rulings", "https://data/rulings.json"⟩, ⟨"oracle_cards", "https://data/oracle.json"⟩]

/-- A per-window processor that does nothing at all. -/
def c10pwNoop : Session → List CardData → Session × List Ev := fun s _ => (s, [])

/-! ### Helper lemmas -/

/-- The `card_model_data` dict always contains the key "legalities", and
the `CardDefinition` model has no such attribute, so
`CardDefinitionModel(**card_model_data)` raises on every input. -/
theorem construct_always_fails (d : CardModelData) :
    constructCardDefinitionModel d = Except.error "legalities" := rfl

/-- Because the constructor always raises (and the exception is caught at
line 123), `process_card_data` never changes the session. -/
theorem process_card_data_session (db : Session) (card : CardData)
    (fetch : String → FetchResult) :
    (process_card_data db card fetch).1 = db := by
  unfold process_card_data
  cases hid : card.id with
  | none => rfl
  | some sid =>
    by_cases hs : sid = ""
    · simp [hs]
    · simp only [if_neg hs]
      cases hl : get_card_definition_by_scryfall_id db sid with
      | some r => rfl
      | none =>
        by_cases hn : falsy (buildCardModelData sid card).name
        · simp [hn]
        · simp [hn, construct_always_fails]

/-- A whole window of concurrent `process_card_data` tasks leaves the
session unchanged. -/
theorem processWindow_session (fetch : String → FetchResult) (db : Session)
    (batch : List CardData) : (processWindow fetch db batch).1 = db := by
  suffices h : ∀ (b : List CardData) (acc : Session × List Ev),
      (b.foldl (fun acc c =>
        let r := process_card_data acc.1 c fetch
        (r.1, acc.2 ++ r.2)) acc).1 = acc.1 by
    exact h batch (db, [])
  intro b
  induction b with
  | nil => intro acc; rfl
  | cons c cs ih =>
    intro acc
    simpa [process_card_data_session] using ih _

/-- When no exception escapes a window, the sizes recorded at the
commits of the batching loop are a function of the remaining item COUNT
and the counters alone — the per-item outcomes and the session never
enter the commit decision. -/
theorem mainLoopGo_commits_count
    (pw : Session → List CardData → Session × List Ev)
    (commitOk : Nat → Bool) (W1 C : Nat) :
    ∀ (fuel : Nat) (items : List CardData) (st : LoopSt),
      (mainLoopGo (fun s b => Except.ok (pw s b)) commitOk W1 C fuel items st).commits
        = st.commits ++ loopCommits commitOk W1 C fuel items.length st.counter st.nCommit := by
  intro fuel
  induction fuel with
  | zero =>
    intro items st
    cases items with
    | nil =>
      simp only [mainLoopGo, List.length_nil, loopCommits]
      split_ifs with hc hk <;> simp
    | cons x xs =>
      simp [mainLoopGo, loopCommits]
  | succ fuel ih =>
    intro items st
    cases items with
    | nil =>
      simp only [mainLoopGo, List.length_nil, loopCommits]
      split_ifs with hc hk <;> simp
    | cons x xs =>
      simp only [mainLoopGo, loopCommits, List.length_cons, List.length_take]
      split_ifs with hC hk
      · rw [ih]
        simp [List.length_drop]
      · simp
      · rw [ih]
        simp [List.length_drop]

/-- If every per-item stage of a window leaves the session unchanged (as
the current `process_card_data` does) and the open transaction starts
empty, the batching loop ends with the same committed set and an empty
transaction; and with every commit succeeding it never rolls back. -/
theorem mainLoopGo_session_inv
    (pw : Session → List CardData → Session × List Ev)
    (hpw : ∀ s b, (pw s b).1 = s)
    (commitOk : Nat → Bool) (W1 C : Nat) :
    ∀ (fuel : Nat) (items : List CardData) (st : LoopSt),
      st.session.staged = [] →
      (mainLoopGo (fun s b => Except.ok (pw s b)) commitOk W1 C fuel items st).session
          = ⟨st.session.committed, []⟩ ∧
        ((∀ k, commitOk k = true) →
          (mainLoopGo (fun s b => Except.ok (pw s b)) commitOk W1 C fuel items st).rolledBack
            = false) := by
  intro fuel
  induction fuel with
  | zero =>
    intro items st hst
    cases items with
    | nil =>
      simp only [mainLoopGo]
      constructor
      · split_ifs with hc hk
        · simp [commitSession, hst]
        · simp [rollbackSession]
        · cases h : st.session
          simp_all
      · intro hall
        split_ifs with hc hk
        · rfl
        · simp [hall st.nCommit] at hk
        · rfl
    | cons x xs =>
      constructor
      · simp only [mainLoopGo]
        cases h : st.session
        simp_all
      · intro _
        rfl
  | succ fuel ih =>
    intro items st hst
    cases items with
    | nil =>
      simp only [mainLoopGo]
      constructor
      · split_ifs with hc hk
        · simp [commitSession, hst]
        · simp [rollbackSession]
        · cases h : st.session
          simp_all
      · intro hall
        split_ifs with hc hk
        · rfl
        · simp [hall st.nCommit] at hk
        · rfl
    | cons x xs =>
      simp only [mainLoopGo]
      constructor
      · split_ifs with hC hk
        · refine Eq.trans ((ih _ _ ?_).1) ?_
          · simp [commitSession]
          · simp [commitSession, hpw, hst]
        · simp [rollbackSession, hpw]
        · refine Eq.trans ((ih _ _ ?_).1) ?_
          · simp [hpw, hst]
          · simp [hpw]
      · intro hall
        split_ifs with hC hk
        · exact (ih _ _ (by simp [commitSession, hpw, hst])).2 hall
        · simp [hall st.nCommit] at hk
        · exact (ih _ _ (by simp [hpw, hst])).2 hall

/-- Transactional invariant of the batching loop: provided per-item
processing only stages (never touches the committed set), whatever the
loop does, the final committed set is the starting one extended by
exactly the batches the successful commits persisted; and whenever the
`except` branch ran, the rollback was issued as the very last action and
the open transaction was emptied. -/
theorem mainLoopGo_rollback_inv
    (pw : Session → List CardData → Except Unit (Session × List Ev))
    (hpw : ∀ s b r, pw s b = Except.ok r → r.1.committed = s.committed)
    (commitOk : Nat → Bool) (W1 C : Nat) :
    ∀ (fuel : Nat) (items : List CardData) (st : LoopSt),
      (∃ suf,
        (mainLoopGo pw commitOk W1 C fuel items st).commitBatches
            = st.commitBatches ++ suf ∧
        (mainLoopGo pw commitOk W1 C fuel items st).session.committed
            = st.session.committed ++ suf.flatten) ∧
      ((mainLoopGo pw commitOk W1 C fuel items st).rolledBack = true →
        (mainLoopGo pw commitOk W1 C fuel items st).session.staged = [] ∧
        ∃ pre, (mainLoopGo pw commitOk W1 C fuel items st).evs
            = pre ++ [Ev.rollbackEv]) := by
  intro fuel
  induction fuel with
  | zero =>
    intro items st
    cases items with
    | nil =>
      constructor
      · simp only [mainLoopGo]
        split_ifs with hc hk
        · exact ⟨[st.session.staged], by simp, by simp [commitSession]⟩
        · exact ⟨[], by simp, by simp [rollbackSession]⟩
        · exact ⟨[], by simp, by simp⟩
      · simp only [mainLoopGo]
        split_ifs with hc hk
        · simp
        · intro _
          exact ⟨rfl, st.evs, rfl⟩
        · simp
    | cons x xs =>
      exact ⟨⟨[], by simp [mainLoopGo], by simp [mainLoopGo]⟩, by simp [mainLoopGo]⟩
  | succ fuel ih =>
    intro items st
    cases items with
    | nil =>
      constructor
      · simp only [mainLoopGo]
        split_ifs with hc hk
        · exact ⟨[st.session.staged], by simp, by simp [commitSession]⟩
        · exact ⟨[], by simp, by simp [rollbackSession]⟩
        · exact ⟨[], by simp, by simp⟩
      · simp only [mainLoopGo]
        split_ifs with hc hk
        · simp
        · intro _
          exact ⟨rfl, st.evs, rfl⟩
        · simp
    | cons x xs =>
      simp only [mainLoopGo]
      cases hr : pw st.session ((x :: xs).take (W1 + 1)) with
      | error e =>
        refine ⟨⟨[], by simp, by simp [rollbackSession]⟩, fun _ => ⟨rfl, st.evs, rfl⟩⟩
      | ok r =>
        have hcom : r.1.committed = st.session.committed := hpw _ _ _ hr
        split_ifs with hC hk
        · obtain ⟨⟨suf, hb, hs⟩, hrb⟩ := ih (xs.drop W1)
            ⟨commitSession r.1, 0, st.nCommit + 1,
             st.commits ++ [st.counter + ((x :: xs).take (W1 + 1)).length],
             st.commitBatches ++ [r.1.staged],
             st.evs ++ r.2 ++
               [Ev.commitEv (st.counter + ((x :: xs).take (W1 + 1)).length)]⟩
          refine ⟨⟨r.1.staged :: suf, ?_, ?_⟩, hrb⟩
          · simpa using hb
          · rw [hs]
            simp [commitSession, hcom]
        · refine ⟨⟨[], by simp, by simp [rollbackSession, hcom]⟩, fun _ => ?_⟩
          exact ⟨rfl, st.evs ++ r.2, by simp⟩
        · obtain ⟨⟨suf, hb, hs⟩, hrb⟩ := ih (xs.drop W1)
            ⟨r.1, st.counter + ((x :: xs).take (W1 + 1)).length, st.nCommit,
             st.commits, st.commitBatches, st.evs ++ r.2⟩
          exact ⟨⟨suf, hb, by rw [hs, hcom]⟩, hrb⟩

/-- `mkItems n j` really has n elements. -/
theorem mkItems_length : ∀ n j, (mkItems n j).length = n := by
  intro n
  induction n with
  | zero => intro j; rfl
  | succ n ih => intro j; simp [mkItems, ih]

/-! ### Claim theorems -/

/-- C1: the claim says the staged record carries legality map, type line,
the three retained URIs and the downloaded payloads, and that staging
succeeds. In the code it does not: the `CardDefinition` model declares
none of the `legalities` / `type_line` / image-URI / image-data
attributes, so `CardDefinitionModel(**card_model_data)` raises `TypeError`
(first bad key: "legalities"), the `except` at line 123 swallows it, and
even a fully valid item with all downloads succeeding stages nothing. -/
theorem c1_record_type_rejects_staged_fields :
    cardDefinitionAttrs.contains "legalities" = false ∧
    cardDefinitionAttrs.contains "type_line" = false ∧
    cardDefinitionAttrs.contains "image_uri_small" = false ∧
    cardDefinitionAttrs.contains "image_data_small" = false ∧
    constructCardDefinitionModel (buildCardModelData "abc-123" exCard)
      = Except.error "legalities" ∧
    (process_card_data ⟨[], []⟩ exCard fetchAllOk).1 = ⟨[], []⟩ ∧
    Ev.stageFailed ∈ (process_card_data ⟨[], []⟩ exCard fetchAllOk).2 := by
  refine ⟨rfl, rfl, rfl, rfl, rfl, rfl, ?_⟩
  decide

/-- C2: the claim says every failed fetch (HTTP error status included)
nulls BOTH the payload and the URI for that size, and that the metadata
record is still staged. In the code a 404 on the small image leaves
`image_uri_small` equal to the original URI (only the generic
`except Exception` branch nullifies the URI; `httpx.HTTPStatusError` is
caught by the earlier branch which only prints), while the payload stays
null and the other sizes succeed; and the record is not staged at all,
because the model constructor raises (see C1). -/
theorem c2_http_status_error_keeps_uri :
    (downloadPhase fetchSmall404 (buildCardModelData "abc-123" exCard)).1.image_uri_small
      = some "https://img/small.jpg" ∧
    (downloadPhase fetchSmall404 (buildCardModelData "abc-123" exCard)).1.image_data_small
      = none ∧
    (downloadPhase fetchSmall404 (buildCardModelData "abc-123" exCard)).1.image_data_normal
      = some "JPEGDATA" ∧
    (downloadPhase fetchSmall404 (buildCardModelData "abc-123" exCard)).1.image_data_large
      = some "JPEGDATA" ∧
    (process_card_data ⟨[], []⟩ exCard fetchSmall404).1.staged = [] :=
  ⟨rfl, rfl, rfl, rfl, rfl⟩

/-- C5: an item with a falsy external id is dropped before anything else
runs; an item with an id but a falsy name is dropped after the lookup and
transform, with no download and no staging attempt; and any new item
passing those two checks reaches the staging attempt — external id and
display name are the only validation gates. In every rejection case the
session is unchanged and nothing is raised. -/
theorem c5_mandatory_field_rejection (db : Session) (card : CardData)
    (fetch : String → FetchResult) :
    (falsy card.id = true → process_card_data db card fetch = (db, [])) ∧
    (∀ sid, card.id = some sid → sid ≠ "" →
      get_card_definition_by_scryfall_id db sid = none → falsy card.name = true →
      process_card_data db card fetch = (db, [Ev.lookup sid, Ev.transform])) ∧
    (∀ sid, card.id = some sid → sid ≠ "" →
      get_card_definition_by_scryfall_id db sid = none → falsy card.name = false →
      Ev.stageFailed ∈ (process_card_data db card fetch).2) := by
  refine ⟨?_, ?_, ?_⟩
  · intro hid
    cases h : card.id with
    | none => simp [process_card_data, h]
    | some sid =>
      rw [h] at hid
      simp only [falsy] at hid
      simp [process_card_data, h, of_decide_eq_true hid]
  · intro sid hid hs hl hn
    have hname : falsy (buildCardModelData sid card).name = true := hn
    simp [process_card_data, hid, hs, hl, hname]
  · intro sid hid hs hl hn
    have hname : falsy (buildCardModelData sid card).name = false := hn
    simp [process_card_data, hid, hs, hl, hname, construct_always_fails]

/-- C5 witness: an item with valid asset URIs but no external id is
dropped with no events; one with an id but no name is dropped right
after lookup and transform. -/
theorem c5_mandatory_field_rejection_witness :
    process_card_data ⟨[], []⟩ noIdCard fetchAllOk = (⟨[], []⟩, []) ∧
    process_card_data ⟨[], []⟩ noNameCard fetchAllOk
      = (⟨[], []⟩, [Ev.lookup "x-1", Ev.transform]) :=
  ⟨(c5_mandatory_field_rejection ⟨[], []⟩ noIdCard fetchAllOk).1 rfl,
   (c5_mandatory_field_rejection ⟨[], []⟩ noNameCard fetchAllOk).2.1 "x-1" rfl
     (by decide) rfl rfl⟩

/-- C6: for an item whose external id already has a record in the store,
`process_card_data` returns right after the existence lookup: the session
is unchanged and the only event is the lookup — no transform, no image
fetch, no staging. -/
theorem c6_dedup_short_circuit (db : Session) (card : CardData)
    (fetch : String → FetchResult) (sid : String)
    (hid : card.id = some sid) (hs : sid ≠ "")
    (hex : (get_card_definition_by_scryfall_id db sid).isSome = true) :
    process_card_data db card fetch = (db, [Ev.lookup sid]) := by
  cases hl : get_card_definition_by_scryfall_id db sid with
  | none => rw [hl] at hex; simp at hex
  | some r => simp [process_card_data, hid, hs, hl]

/-- C6 witness: with the store already holding a record for "abc-123",
processing `exCard` performs only the lookup. -/
theorem c6_dedup_short_circuit_witness :
    process_card_data ⟨[buildCardModelData "abc-123" exCard], []⟩ exCard fetchAllOk
      = (⟨[buildCardModelData "abc-123" exCard], []⟩, [Ev.lookup "abc-123"]) :=
  c6_dedup_short_circuit ⟨[buildCardModelData "abc-123" exCard], []⟩ exCard
    fetchAllOk "abc-123" rfl (by decide) (by decide)

/-- C9: when no directory entry matches the requested dataset kind,
`get_latest_bulk_data_uri` returns `None` as a normal value, and
`main_populate` then stops with the diagnostic: its trace holds only the
directory query — no bulk download, no table creation, no session, no
commit. -/
theorem c9_locator_not_found_aborts (directory : List BulkDataEntry)
    (bulk_items : List CardData) (fetch : String → FetchResult)
    (commitOk : Nat → Bool) (store : List CardModelData)
    (h : ∀ e ∈ directory, e.type ≠ "all_cards") :
    get_latest_bulk_data_uri directory "all_cards" = none ∧
    main_populate directory bulk_items fetch commitOk store
      = (MainOutcome.abortedNoUri, [TopEv.directoryQuery]) := by
  have hnone : get_latest_bulk_data_uri directory "all_cards" = none := by
    induction directory with
    | nil => rfl
    | cons e rest ih =>
      have he : e.type ≠ "all_cards" := h e (by simp)
      simp only [get_latest_bulk_data_uri, if_neg he]
      exact ih (fun e' he' => h e' (by simp [he']))
  exact ⟨hnone, by simp [main_populate, hnone]⟩

/-- C9 witness: a directory with only "rulings" and "oracle_cards"
entries makes the run abort after the directory query. -/
theorem c9_locator_not_found_aborts_witness :
    get_latest_bulk_data_uri noMatchDirectory "all_cards" = none ∧
    main_populate noMatchDirectory [exCard] fetchAllOk (fun _ => true) []
      = (MainOutcome.abortedNoUri, [TopEv.directoryQuery]) :=
  c9_locator_not_found_aborts noMatchDirectory [exCard] fetchAllOk (fun _ => true) []
    (by decide)

/-- C3: with threshold 200, window width 20 and 450 valid non-duplicate
items (every fetch and commit succeeding), the run issues exactly the
commits of sizes 200, 200 and 50 and does not roll back — but 0 records
exist afterwards, not 450: every staging attempt failed on the model
constructor (see C1), so the commits persisted nothing. -/
theorem c3_commits_issued_but_no_records :
    c3run.commits = [200, 200, 50] ∧
    c3run.session.committed = [] ∧
    c3run.rolledBack = false := by
  have hsess := mainLoopGo_session_inv (processWindow fetchAllOk)
    (processWindow_session fetchAllOk) (fun _ => true) 19 200
    items450.length items450 (initLoopSt ⟨[], []⟩) rfl
  refine ⟨?_, ?_, ?_⟩
  · have hc := mainLoopGo_commits_count (processWindow fetchAllOk) (fun _ => true)
      19 200 items450.length items450 (initLoopSt ⟨[], []⟩)
    rw [show c3run = mainLoopGo
        (fun s b => Except.ok (processWindow fetchAllOk s b)) (fun _ => true) 19 200
        items450.length items450 (initLoopSt ⟨[], []⟩) from rfl, hc]
    rw [show items450.length = 450 from mkItems_length 450 0]
    decide
  · rw [show c3run.session = (mainLoopGo
        (fun s b => Except.ok (processWindow fetchAllOk s b)) (fun _ => true) 19 200
        items450.length items450 (initLoopSt ⟨[], []⟩)).session from rfl, hsess.1]
    rfl
  · exact hsess.2 (fun _ => rfl)

/-- C4: whatever the per-item processing stages and whichever commit (or
window) throws, if the run ended in the `except` branch then the rollback
was the final action (so no commit follows it), the open transaction is
empty — records staged since the last successful commit are gone — and
the committed set is exactly the initial store plus the batches the
successful (earlier) commits persisted. -/
theorem c4_rollback_atomicity
    (pw : Session → List CardData → Except Unit (Session × List Ev))
    (commitOk : Nat → Bool) (W1 C fuel : Nat) (items : List CardData) (db : Session)
    (hpw : ∀ s b r, pw s b = Except.ok r → r.1.committed = s.committed)
    (hrb : (mainLoopGo pw commitOk W1 C fuel items (initLoopSt db)).rolledBack = true) :
    (mainLoopGo pw commitOk W1 C fuel items (initLoopSt db)).session.staged = [] ∧
    (mainLoopGo pw commitOk W1 C fuel items (initLoopSt db)).session.committed
      = db.committed
        ++ (mainLoopGo pw commitOk W1 C fuel items (initLoopSt db)).commitBatches.flatten ∧
    ∃ pre, (mainLoopGo pw commitOk W1 C fuel items (initLoopSt db)).evs
      = pre ++ [Ev.rollbackEv] := by
  obtain ⟨⟨suf, hb, hs⟩, hroll⟩ :=
    mainLoopGo_rollback_inv pw hpw commitOk W1 C fuel items (initLoopSt db)
  obtain ⟨hstaged, pre, hpre⟩ := hroll hrb
  refine ⟨hstaged, ?_, pre, hpre⟩
  rw [hs, hb]
  simp [initLoopSt]

/-- C4 witness: a processor staging one record per window, width 1,
threshold 1, three items, the second commit failing: the rollback ends
the trace, the transaction is empty, and exactly the first commit's
batch is persisted. -/
theorem c4_rollback_atomicity_witness :
    (mainLoopGo c4pw c4commitOk 0 1 3 [exCard, exCard, exCard]
        (initLoopSt ⟨[], []⟩)).session.staged = [] ∧
    (mainLoopGo c4pw c4commitOk 0 1 3 [exCard, exCard, exCard]
        (initLoopSt ⟨[], []⟩)).session.committed
      = ([] : List CardModelData)
        ++ (mainLoopGo c4pw c4commitOk 0 1 3 [exCard, exCard, exCard]
            (initLoopSt ⟨[], []⟩)).commitBatches.flatten ∧
    ∃ pre, (mainLoopGo c4pw c4commitOk 0 1 3 [exCard, exCard, exCard]
        (initLoopSt ⟨[], []⟩)).evs = pre ++ [Ev.rollbackEv] :=
  c4_rollback_atomicity c4pw c4commitOk 0 1 3 [exCard, exCard, exCard] ⟨[], []⟩
    (fun s b r h => by cases h; rfl) rfl

/-- C7: re-running the pipeline over the same one-item dataset. The first
run's final commit succeeds but persists nothing (the staging bug of C1),
so the store the second run sees is empty; the second run therefore does
NOT short-circuit at the dedup gate — it fetches the images again and
re-attempts (and re-fails) staging. Both runs leave the same, empty,
persisted record set, so zero new records persist, but not for the
claim's reason. -/
theorem c7_second_run_reprocesses :
    c7run1.commits = [1] ∧
    c7run1.session.committed = [] ∧
    c7run2.session.committed = [] ∧
    Ev.fetchImage "https://img/small.jpg" ∈ c7run2.evs ∧
    Ev.stageFailed ∈ c7run2.evs := by
  refine ⟨rfl, rfl, rfl, ?_, ?_⟩ <;> decide

/-- C10: the counter rises by the full window size whatever happened to
the items, so the sizes and positions of the commits issued by the
batching loop are the same for any two runs with the same item count,
window width, threshold and commit oracle — whatever each item's
processing did to the session. -/
theorem c10_commit_trace_depends_only_on_count
    (pw₁ pw₂ : Session → List CardData → Session × List Ev)
    (commitOk : Nat → Bool) (W1 C : Nat)
    (items₁ items₂ : List CardData) (db₁ db₂ : Session)
    (h : items₁.length = items₂.length) :
    (mainLoopGo (fun s b => Except.ok (pw₁ s b)) commitOk W1 C
        items₁.length items₁ (initLoopSt db₁)).commits
      = (mainLoopGo (fun s b => Except.ok (pw₂ s b)) commitOk W1 C
        items₂.length items₂ (initLoopSt db₂)).commits := by
  rw [mainLoopGo_commits_count, mainLoopGo_commits_count]
  simp [initLoopSt, h]

/-- C10 witness: the faithful run over two items (one of them invalid and
skipped) has the same commit trace as a no-op processor over two other
items. -/
theorem c10_commit_trace_witness :
    (run_populate fetchAllOk (fun _ => true) [exCard, noIdCard] ⟨[], []⟩).commits
      = (mainLoopGo (fun s b => Except.ok (c10pwNoop s b)) (fun _ => true) 19 200
          [noNameCard, exCard].length [noNameCard, exCard] (initLoopSt ⟨[], []⟩)).commits :=
  c10_commit_trace_depends_only_on_count (processWindow fetchAllOk) c10pwNoop
    (fun _ => true) 19 200 [exCard, noIdCard] [noNameCard, exCard] ⟨[], []⟩ ⟨[], []⟩ rfl

end MtgCollection
